import Mathlib

/-!
Verification of the open-typeless dictation assistant against its design
document.  The development shallowly embeds three parts of the source:

* the push-to-talk trigger layer (`handleKeyDown` / `handleKeyUp` from the
  global-keyboard-hooks module),
* the floating-window manager (`show` / `hide` / `setContentHeight` /
  `sendStatus` from the window-lifecycle module) together with the shared
  `ASRStatus` type, and
* the stub ASR IPC handlers (`setupASRHandlers`).

Machine time (`Date.now()`) is passed explicitly as a natural number of
milliseconds; mutable module state becomes explicit state records and the
side-effecting callbacks / Electron calls become explicit action traces.
-/

/-! ## Trigger layer (push-to-talk pattern)

Embedding of the `CONFIG` / `state` / `isDebounced` / `handleKeyDown` /
`handleKeyUp` definitions.  JavaScript `Date.now() - lastTime` is modelled
with truncated natural subtraction: whenever the JS difference is negative
the JS comparison `diff < window` is true, and so is `0 < window` for the
truncated value, so the branch taken is identical. -/

structure TriggerConfig where
  pushToTalkKey : Nat
  debounceMs : Nat
  minRecordingMs : Nat
  deriving DecidableEq

/-- The keycode `UiohookKey.AltRight` used as the default push-to-talk key. -/
def UiohookKeyAltRight : Nat := 3640

/-- `CONFIG` from the source: Right Alt, 50ms debounce, 200ms minimum hold. -/
def CONFIG : TriggerConfig :=
  { pushToTalkKey := UiohookKeyAltRight, debounceMs := 50, minRecordingMs := 200 }

/-- The mutable `state` record of the trigger module (callback fields are
modelled by the emitted `Cb` values instead of stored closures). -/
structure PTTState where
  isKeyHeld : Bool
  lastKeyDownTime : Nat
  lastKeyUpTime : Nat
  recordingStartTime : Nat
  deriving DecidableEq

/-- The initial `state` value from the source (all fields zero / false). -/
def initialPTTState : PTTState :=
  { isKeyHeld := false, lastKeyDownTime := 0, lastKeyUpTime := 0, recordingStartTime := 0 }

/-- A downstream callback invocation: `state.onStart?.()` or `state.onStop?.()`. -/
inductive Cb where
  | start
  | stop
  deriving DecidableEq

/-- `isDebounced(lastTime)` : `Date.now() - lastTime < CONFIG.debounceMs`. -/
def isDebounced (cfg : TriggerConfig) (lastTime now : Nat) : Bool :=
  now - lastTime < cfg.debounceMs

/-- `handleKeyDown(keycode)`, with `Date.now()` passed as `now`.  Returns the
updated state and the callback fired, if any. -/
def handleKeyDown (cfg : TriggerConfig) (keycode now : Nat) (s : PTTState) :
    PTTState × Option Cb :=
  if keycode ≠ cfg.pushToTalkKey then (s, none)
  else if isDebounced cfg s.lastKeyDownTime now then (s, none)
  else if s.isKeyHeld then (s, none)
  else
    ({ s with isKeyHeld := true, lastKeyDownTime := now, recordingStartTime := now },
     some Cb.start)

/-- `handleKeyUp(keycode)`, with `Date.now()` passed as `now`.  The
"recording too short" branch resets `isKeyHeld` and fires no callback. -/
def handleKeyUp (cfg : TriggerConfig) (keycode now : Nat) (s : PTTState) :
    PTTState × Option Cb :=
  if keycode ≠ cfg.pushToTalkKey then (s, none)
  else if s.isKeyHeld = false then (s, none)
  else if isDebounced cfg s.lastKeyUpTime now then (s, none)
  else if now - s.recordingStartTime < cfg.minRecordingMs then
    ({ s with isKeyHeld := false }, none)
  else
    ({ s with isKeyHeld := false, lastKeyUpTime := now }, some Cb.stop)

/-- A raw hardware key event as delivered by the `uIOhook` hooks. -/
inductive RawEvent where
  | keydown (keycode time : Nat)
  | keyup (keycode time : Nat)
  deriving DecidableEq

/-- Dispatch one raw event to the matching handler. -/
def step (cfg : TriggerConfig) (s : PTTState) : RawEvent → PTTState × Option Cb
  | RawEvent.keydown k t => handleKeyDown cfg k t s
  | RawEvent.keyup k t => handleKeyUp cfg k t s

/-- Process a list of raw events in order, collecting the fired callbacks. -/
def run (cfg : TriggerConfig) (s : PTTState) : List RawEvent → PTTState × List Cb
  | [] => (s, [])
  | e :: es =>
    ((run cfg (step cfg s e).1 es).1,
     (step cfg s e).2.toList ++ (run cfg (step cfg s e).1 es).2)

/-- Number of `start` callbacks in a trace. -/
def startsCount : List Cb → Nat
  | [] => 0
  | Cb.start :: cs => startsCount cs + 1
  | Cb.stop :: cs => startsCount cs

/-- Number of steps at which the held flag falls from `true` to `false`. -/
def fallCount (cfg : TriggerConfig) (s : PTTState) : List RawEvent → Nat
  | [] => 0
  | e :: es =>
    (if s.isKeyHeld && !(step cfg s e).1.isKeyHeld then 1 else 0)
      + fallCount cfg (step cfg s e).1 es

/-! ### Trigger layer: helper lemmas -/

theorem keyDown_of_held (cfg : TriggerConfig) (keycode now : Nat) (s : PTTState)
    (h : s.isKeyHeld = true) : handleKeyDown cfg keycode now s = (s, none) := by
  simp [handleKeyDown, h]

theorem keyUp_of_not_held (cfg : TriggerConfig) (keycode now : Nat) (s : PTTState)
    (h : s.isKeyHeld = false) : handleKeyUp cfg keycode now s = (s, none) := by
  simp [handleKeyUp, h]

theorem down_cases (cfg : TriggerConfig) (keycode now : Nat) (s : PTTState) :
    handleKeyDown cfg keycode now s = (s, none) ∨
      (s.isKeyHeld = false ∧
        handleKeyDown cfg keycode now s =
          ({ s with isKeyHeld := true, lastKeyDownTime := now, recordingStartTime := now },
            some Cb.start)) := by
  unfold handleKeyDown
  split_ifs with h1 h2 h3
  · exact Or.inl rfl
  · exact Or.inl rfl
  · exact Or.inl rfl
  · exact Or.inr ⟨by simpa using h3, rfl⟩

theorem up_cases (cfg : TriggerConfig) (keycode now : Nat) (s : PTTState) :
    handleKeyUp cfg keycode now s = (s, none) ∨
      (s.isKeyHeld = true ∧
        handleKeyUp cfg keycode now s = ({ s with isKeyHeld := false }, none)) ∨
      (s.isKeyHeld = true ∧
        handleKeyUp cfg keycode now s =
          ({ s with isKeyHeld := false, lastKeyUpTime := now }, some Cb.stop)) := by
  unfold handleKeyUp
  split_ifs with h1 h2 h3 h4
  · exact Or.inl rfl
  · exact Or.inl rfl
  · exact Or.inl rfl
  · exact Or.inr (Or.inl ⟨by simpa using h2, rfl⟩)
  · exact Or.inr (Or.inr ⟨by simpa using h2, rfl⟩)

theorem step_start (cfg : TriggerConfig) (s : PTTState) (e : RawEvent)
    (h : (step cfg s e).2 = some Cb.start) :
    s.isKeyHeld = false ∧ (step cfg s e).1.isKeyHeld = true := by
  cases e with
  | keydown k t =>
    rcases down_cases cfg k t s with hc | ⟨hf, hc⟩
    · rw [step] at h ⊢
      rw [hc] at h
      exact absurd h (by simp)
    · rw [step] at h ⊢
      rw [hc]
      exact ⟨hf, rfl⟩
  | keyup k t =>
    rcases up_cases cfg k t s with hc | ⟨hf, hc⟩ | ⟨hf, hc⟩ <;>
      · rw [step] at h
        rw [hc] at h
        exact absurd h (by simp)

theorem step_rise (cfg : TriggerConfig) (s : PTTState) (e : RawEvent)
    (h : (step cfg s e).1.isKeyHeld = true) :
    s.isKeyHeld = true ∨ (step cfg s e).2 = some Cb.start := by
  cases e with
  | keydown k t =>
    rcases down_cases cfg k t s with hc | ⟨hf, hc⟩
    · rw [step] at h
      rw [hc] at h
      exact Or.inl h
    · rw [step]
      rw [hc]
      exact Or.inr rfl
  | keyup k t =>
    rcases up_cases cfg k t s with hc | ⟨hf, hc⟩ | ⟨hf, hc⟩ <;>
      · rw [step] at h
        rw [hc] at h
        first
          | exact Or.inl h
          | exact absurd h (by simp)

theorem keyUp_stop_duration (cfg : TriggerConfig) (keycode now : Nat) (s : PTTState)
    (h : (handleKeyUp cfg keycode now s).2 = some Cb.stop) :
    cfg.minRecordingMs ≤ now - s.recordingStartTime := by
  unfold handleKeyUp at h
  split_ifs at h with h1 h2 h3 h4 <;>
    first
      | exact Option.noConfusion h
      | omega

theorem startsCount_append (a b : List Cb) :
    startsCount (a ++ b) = startsCount a + startsCount b := by
  induction a with
  | nil => simp [startsCount]
  | cons c cs ih =>
    cases c <;> simp [startsCount, ih] <;> omega

/-! ### Trigger layer: claim theorems -/

/-- C1 counterexample: engage at t = 100000, release at t = 100150 (hold of
150ms < the 200ms minimum), starting from the module's initial state with the
configured key.  The claim says no start or stop event is forwarded downstream
for such a pair, but the code fires the start callback already at key-down, so
the pair forwards exactly one `start` event. -/
theorem shortHold_forwards_start_cex :
    (run CONFIG initialPTTState
      [RawEvent.keydown 3640 100000, RawEvent.keyup 3640 100150]).2 = [Cb.start] ∧
    100150 - 100000 < CONFIG.minRecordingMs := by
  decide

/-- C1 (amended): if the trigger is released before `minRecordingMs` has
elapsed since the paired engagement, the release is treated as noise: no stop
callback is forwarded downstream; the start callback, however, has already
fired at engagement time, so the pair forwards exactly the one `start`
event. -/
theorem shortHold_no_stop (cfg : TriggerConfig) (s : PTTState) (t0 t1 : Nat)
    (hheld : s.isKeyHeld = false)
    (hdeb : isDebounced cfg s.lastKeyDownTime t0 = false)
    (hshort : t1 - t0 < cfg.minRecordingMs) :
    (run cfg s
      [RawEvent.keydown cfg.pushToTalkKey t0, RawEvent.keyup cfg.pushToTalkKey t1]).2
      = [Cb.start] := by
  have hdown : handleKeyDown cfg cfg.pushToTalkKey t0 s =
      ({ s with isKeyHeld := true, lastKeyDownTime := t0, recordingStartTime := t0 },
        some Cb.start) := by
    unfold handleKeyDown
    rw [if_neg (by simp), if_neg (by simp [hdeb]), if_neg (by simp [hheld])]
  have hrec : (handleKeyDown cfg cfg.pushToTalkKey t0 s).1.recordingStartTime = t0 := by
    rw [hdown]
  have hup : (handleKeyUp cfg cfg.pushToTalkKey t1
      (handleKeyDown cfg cfg.pushToTalkKey t0 s).1).2 = none := by
    rcases up_cases cfg cfg.pushToTalkKey t1 (handleKeyDown cfg cfg.pushToTalkKey t0 s).1
      with hc | ⟨_, hc⟩ | ⟨_, hc⟩
    · rw [hc]
    · rw [hc]
    · have hdur := keyUp_stop_duration cfg cfg.pushToTalkKey t1
        (handleKeyDown cfg cfg.pushToTalkKey t0 s).1 (by rw [hc])
      rw [hrec] at hdur
      omega
  have hfire : (handleKeyDown cfg cfg.pushToTalkKey t0 s).2 = some Cb.start := by
    rw [hdown]
  simp only [run, step]
  rw [hup, hfire]
  simp

/-- C1 amended witness: concrete short-hold pair (engage at 1000, release at
1100) from the initial state. -/
theorem shortHold_no_stop_witness :
    (run CONFIG initialPTTState
      [RawEvent.keydown CONFIG.pushToTalkKey 1000, RawEvent.keyup CONFIG.pushToTalkKey 1100]).2
      = [Cb.start] :=
  shortHold_no_stop CONFIG initialPTTState 1000 1100 rfl (by decide) (by decide)

/-- C2: at most one push-to-talk session is active at any time.  A key-down
arriving while the key is already held leaves the state unchanged and fires no
callback, and along any raw event trace the number of `start` callbacks never
exceeds the number of times the held flag is released, plus one initial
engagement — so the start callback never fires twice without an intervening
release of the held state. -/
theorem single_active_session (cfg : TriggerConfig) (s : PTTState)
    (keycode now : Nat) (es : List RawEvent) :
    handleKeyDown cfg keycode now { s with isKeyHeld := true }
      = ({ s with isKeyHeld := true }, none) ∧
    startsCount (run cfg s es).2
      ≤ fallCount cfg s es + (if s.isKeyHeld then 0 else 1) := by
  refine ⟨keyDown_of_held cfg keycode now _ rfl, ?_⟩
  induction es generalizing s with
  | nil => simp [run, fallCount, startsCount]
  | cons e es ih =>
    have hstep : run cfg s (e :: es)
        = ((run cfg (step cfg s e).1 es).1,
           (step cfg s e).2.toList ++ (run cfg (step cfg s e).1 es).2) := rfl
    rw [hstep]
    have hfall : fallCount cfg s (e :: es)
        = (if s.isKeyHeld && !(step cfg s e).1.isKeyHeld then 1 else 0)
            + fallCount cfg (step cfg s e).1 es := rfl
    rw [hfall]
    have ih1 := ih (step cfg s e).1
    rcases ho : (step cfg s e).2 with _ | c
    · cases hs1 : (step cfg s e).1.isKeyHeld with
      | false =>
        cases hs : s.isKeyHeld with
        | false =>
          simp [hs, hs1, startsCount, startsCount_append] at ih1 ⊢
          omega
        | true =>
          simp [hs, hs1, startsCount, startsCount_append] at ih1 ⊢
          omega
      | true =>
        have hrise := step_rise cfg s e hs1
        rcases hrise with hs | hc
        · simp [hs, hs1, startsCount, startsCount_append] at ih1 ⊢
          omega
        · rw [ho] at hc
          simp at hc
    · cases c with
      | start =>
        obtain ⟨hpre, hpost⟩ := step_start cfg s e ho
        simp [hpre, hpost, startsCount, startsCount_append] at ih1 ⊢
        omega
      | stop =>
        cases hs1 : (step cfg s e).1.isKeyHeld with
        | false =>
          cases hs : s.isKeyHeld with
          | false =>
            simp [hs, hs1, startsCount, startsCount_append] at ih1 ⊢
            omega
          | true =>
            simp [hs, hs1, startsCount, startsCount_append] at ih1 ⊢
            omega
        | true =>
          have hrise := step_rise cfg s e hs1
          rcases hrise with hs | hc
          · simp [hs, hs1, startsCount, startsCount_append] at ih1 ⊢
            omega
          · rw [ho] at hc
            simp at hc

/-- C3: duplicate raw signals of the same kind arriving within the debounce
window collapse to one logical trigger event: for key-down/key-down and
key-up/key-up pairs, at least one of the two signals is a strict no-op (state
unchanged, no callback fired), so replaying a raw signal within the window
never produces an additional start or stop callback. -/
theorem debounce_collapse (cfg : TriggerConfig) (s : PTTState) (keycode t1 t2 : Nat)
    (hwin : t2 - t1 < cfg.debounceMs) :
    (handleKeyDown cfg keycode t1 s = (s, none) ∨
      handleKeyDown cfg keycode t2 (handleKeyDown cfg keycode t1 s).1
        = ((handleKeyDown cfg keycode t1 s).1, none)) ∧
    (handleKeyUp cfg keycode t1 s = (s, none) ∨
      handleKeyUp cfg keycode t2 (handleKeyUp cfg keycode t1 s).1
        = ((handleKeyUp cfg keycode t1 s).1, none)) := by
  constructor
  · rcases down_cases cfg keycode t1 s with hc | ⟨hf, hc⟩
    · exact Or.inl hc
    · refine Or.inr ?_
      rw [hc]
      exact keyDown_of_held cfg keycode t2 _ rfl
  · rcases up_cases cfg keycode t1 s with hc | ⟨hf, hc⟩ | ⟨hf, hc⟩
    · exact Or.inl hc
    · refine Or.inr ?_
      rw [hc]
      exact keyUp_of_not_held cfg keycode t2 _ rfl
    · refine Or.inr ?_
      rw [hc]
      exact keyUp_of_not_held cfg keycode t2 _ rfl

/-- C3 witness: duplicate key-down and key-up signals 20ms apart (within the
50ms default window) at the default configuration and initial state. -/
theorem debounce_collapse_witness :
    (handleKeyDown CONFIG 3640 1000 initialPTTState = (initialPTTState, none) ∨
      handleKeyDown CONFIG 3640 1020 (handleKeyDown CONFIG 3640 1000 initialPTTState).1
        = ((handleKeyDown CONFIG 3640 1000 initialPTTState).1, none)) ∧
    (handleKeyUp CONFIG 3640 1000 initialPTTState = (initialPTTState, none) ∨
      handleKeyUp CONFIG 3640 1020 (handleKeyUp CONFIG 3640 1000 initialPTTState).1
        = ((handleKeyUp CONFIG 3640 1000 initialPTTState).1, none)) :=
  debounce_collapse CONFIG initialPTTState 3640 1000 1020 (by decide)

/-- C9: a key event whose keycode is not the configured push-to-talk key is
dropped silently: both handlers leave the trigger state unchanged and fire no
start or stop callback. -/
theorem unknown_key_dropped (cfg : TriggerConfig) (s : PTTState) (keycode now : Nat)
    (hk : keycode ≠ cfg.pushToTalkKey) :
    handleKeyDown cfg keycode now s = (s, none) ∧
    handleKeyUp cfg keycode now s = (s, none) := by
  constructor
  · unfold handleKeyDown
    rw [if_pos hk]
  · unfold handleKeyUp
    rw [if_pos hk]

/-- C9 witness: keycode 30 (letter A) is not the configured Right-Alt key, and
both handlers drop it from the initial state. -/
theorem unknown_key_dropped_witness :
    handleKeyDown CONFIG 30 5000 initialPTTState = (initialPTTState, none) ∧
    handleKeyUp CONFIG 30 5000 initialPTTState = (initialPTTState, none) :=
  unknown_key_dropped CONFIG initialPTTState 30 5000 (by decide)

/-! ## Shared ASR status type

Embedding of the `ASRStatus` union type from the shared type definitions:
`'idle' | 'connecting' | 'listening' | 'processing' | 'done' | 'error'`. -/

inductive ASRStatus where
  | idle
  | connecting
  | listening
  | processing
  | done
  | error
  deriving DecidableEq, BEq

/-- The TypeScript string literal of each `ASRStatus` member, in source
declaration order. -/
def ASRStatus.tsLiteral : ASRStatus → String
  | ASRStatus.idle => "idle"
  | ASRStatus.connecting => "connecting"
  | ASRStatus.listening => "listening"
  | ASRStatus.processing => "processing"
  | ASRStatus.done => "done"
  | ASRStatus.error => "error"

/-- The members of the `ASRStatus` union in source declaration order. -/
def asrStatusValues : List ASRStatus :=
  [ASRStatus.idle, ASRStatus.connecting, ASRStatus.listening,
   ASRStatus.processing, ASRStatus.done, ASRStatus.error]

/-! ## Window manager (window-lifecycle module)

Embedding of the `WindowManager` patterns: `show`, `hide`,
`setContentHeight` and `sendStatus`.  The module constants
(`MIN_HEIGHT`, `MAX_HEIGHT`, `CHROME_HEIGHT`, `DEBOUNCE_THRESHOLD`, `WIDTH`,
`BOTTOM_OFFSET`, `screenHeight`) are not fixed in the source excerpt, so they
are carried in a configuration record; the spec's default debounce threshold
is 4 px.  Electron calls become explicit `WMAction` values, in the order the
code performs them. -/

structure WMConfig where
  minHeight : Int
  maxHeight : Int
  chromeHeight : Int
  debounceThreshold : Nat
  windowWidth : Int
  bottomOffset : Int
  screenHeight : Int
  deriving DecidableEq

structure Bounds where
  x : Int
  y : Int
  width : Int
  height : Int
  deriving DecidableEq

structure WMState where
  windowExists : Bool
  visible : Bool
  currentHeight : Int
  bounds : Bounds
  deriving DecidableEq

inductive WMAction where
  | createWindow
  | resetHeightSync
  | clearPreviousContent
  | showInactive
  | hideWindow
  | setBounds (b : Bounds)
  | sendToRenderer (st : ASRStatus)
  deriving DecidableEq

/-- `show()`: create the window if missing (a fresh window is hidden), run
first-time setup (`resetHeightSync`; `clearPreviousContent`) only when the
window was not visible, then `showInactive()`. -/
def wmShow (cfg : WMConfig) (w : WMState) : WMState × List WMAction :=
  if w.windowExists then
    if w.visible then
      (w, [WMAction.showInactive])
    else
      ({ w with visible := true, currentHeight := cfg.minHeight },
       [WMAction.resetHeightSync, WMAction.clearPreviousContent, WMAction.showInactive])
  else
    ({ w with windowExists := true, visible := true, currentHeight := cfg.minHeight },
     [WMAction.createWindow, WMAction.resetHeightSync, WMAction.clearPreviousContent,
      WMAction.showInactive])

/-- `hide()`: hide the window (when one exists) and reset the tracked height
to `MIN_HEIGHT`. -/
def hide (cfg : WMConfig) (w : WMState) : WMState × List WMAction :=
  ({ w with visible := false, currentHeight := cfg.minHeight },
   if w.windowExists then [WMAction.hideWindow] else [])

/-- `setContentHeight(contentHeight)`: cap the target height at `MAX_HEIGHT`,
ignore changes smaller than the debounce threshold, otherwise set bounds with
the vertical origin recomputed from the bottom of the screen. -/
def setContentHeight (cfg : WMConfig) (contentHeight : Int) (w : WMState) :
    WMState × List WMAction :=
  let targetHeight := min (cfg.chromeHeight + contentHeight) cfg.maxHeight
  if (targetHeight - w.currentHeight).natAbs < cfg.debounceThreshold then
    (w, [])
  else
    let newY := cfg.screenHeight - targetHeight - cfg.bottomOffset
    let nb : Bounds := { x := w.bounds.x, y := newY, width := cfg.windowWidth, height := targetHeight }
    ({ w with bounds := nb, currentHeight := targetHeight }, [WMAction.setBounds nb])

/-- `['connecting', 'listening', 'processing'].includes(status)`. -/
def statusShouldBeVisible (st : ASRStatus) : Bool :=
  match st with
  | ASRStatus.connecting => true
  | ASRStatus.listening => true
  | ASRStatus.processing => true
  | _ => false

theorem shouldBeVisible_idle : statusShouldBeVisible ASRStatus.idle = false := rfl

/-- `sendStatus(status)`: show when the status is one of the visible ones,
hide and skip the renderer notification on `idle`, otherwise notify the
renderer. -/
def sendStatus (cfg : WMConfig) (st : ASRStatus) (w : WMState) : WMState × List WMAction :=
  let p1 := if statusShouldBeVisible st then wmShow cfg w else (w, [])
  if st = ASRStatus.idle then
    ((hide cfg p1.1).1, p1.2 ++ (hide cfg p1.1).2)
  else
    (p1.1, p1.2 ++ [WMAction.sendToRenderer st])

/-- `show()` called `n` times in a row, collecting all actions. -/
def iterShow (cfg : WMConfig) (w : WMState) : Nat → WMState × List WMAction
  | 0 => (w, [])
  | n + 1 =>
    ((iterShow cfg (wmShow cfg w).1 n).1,
     (wmShow cfg w).2 ++ (iterShow cfg (wmShow cfg w).1 n).2)

/-- Occurrences of one action in a trace. -/
def countAct (a : WMAction) : List WMAction → Nat
  | [] => 0
  | b :: bs => (if b = a then 1 else 0) + countAct a bs

theorem countAct_append (a : WMAction) (xs ys : List WMAction) :
    countAct a (xs ++ ys) = countAct a xs + countAct a ys := by
  induction xs with
  | nil => simp [countAct]
  | cons b bs ih => simp [countAct, ih]; omega

theorem wmShow_post (cfg : WMConfig) (w : WMState) :
    (wmShow cfg w).1.windowExists = true ∧ (wmShow cfg w).1.visible = true := by
  unfold wmShow
  split_ifs with h1 h2
  · exact ⟨h1, h2⟩
  · exact ⟨h1, rfl⟩
  · exact ⟨rfl, rfl⟩

theorem wmShow_no_send (cfg : WMConfig) (w : WMState) (st : ASRStatus) :
    WMAction.sendToRenderer st ∉ (wmShow cfg w).2 := by
  unfold wmShow
  split_ifs <;> simp

/-! ## ASR IPC handlers (stub implementations)

Embedding of `setupASRHandlers`: the `asr:start` handler takes a config
argument, performs no effect and resolves `{ success: true }`; the
`asr:stop` handler performs no effect and resolves `{ success: true }`.
A thrown exception would appear as `Except.error`; the bodies contain no
throwing code, so the result is always `Except.ok`. -/

structure HandlerResult where
  success : Bool
  deriving DecidableEq

/-- An observable effect an ASR IPC handler could perform (none are in the
stub implementations). -/
inductive ASREffect where
  | openConnection
  | startAudioCapture
  | stopAudioCapture
  | closeConnection
  deriving DecidableEq

/-- The `asr:start` handler body: no effects, resolves `{ success: true }`. -/
def asrStartHandler (α : Type) (config : α) : List ASREffect × Except String HandlerResult :=
  ([], Except.ok { success := true })

/-- The `asr:stop` handler body: no effects, resolves `{ success: true }`. -/
def asrStopHandler : List ASREffect × Except String HandlerResult :=
  ([], Except.ok { success := true })

/-! ## Window manager and IPC claim theorems -/

/-- C4 counterexample: the shared status union has no member named
`finalizing` (nor `Finalizing`); the member between `listening` and `done`
is `processing`. -/
theorem no_finalizing_status_cex :
    (asrStatusValues.map ASRStatus.tsLiteral).contains "finalizing" = false ∧
    (asrStatusValues.map ASRStatus.tsLiteral).contains "Finalizing" = false ∧
    (asrStatusValues.map ASRStatus.tsLiteral).contains "processing" = true := by
  decide

/-- C4 (amended): the orchestrator status type has exactly the six members
`idle`, `connecting`, `listening`, `processing`, `done`, `error`, in that
order — the state between `listening` and `done` is named `processing`, not
`finalizing`. -/
theorem asr_status_exactly_six (st : ASRStatus) :
    st ∈ asrStatusValues ∧
    asrStatusValues.map ASRStatus.tsLiteral
      = ["idle", "connecting", "listening", "processing", "done", "error"] ∧
    asrStatusValues.Nodup ∧
    st.tsLiteral ≠ "finalizing" := by
  refine ⟨?_, by decide, by decide, ?_⟩
  · cases st <;> simp [asrStatusValues]
  · cases st <;> decide

/-- C5: on status `idle` the window manager hides the window and forwards
nothing to the renderer — the whole action trace of `sendStatus idle` is the
hide call — and no `idle` status notification is ever sent to the renderer
for any status and any window state. -/
theorem idle_hides_before_notify (cfg : WMConfig) (w : WMState) :
    (sendStatus cfg ASRStatus.idle w).2
      = (if w.windowExists then [WMAction.hideWindow] else []) ∧
    ∀ (st : ASRStatus) (w2 : WMState),
      WMAction.sendToRenderer ASRStatus.idle ∉ (sendStatus cfg st w2).2 := by
  constructor
  · unfold sendStatus
    rw [shouldBeVisible_idle]
    simp [hide]
  · intro st w2 hmem
    unfold sendStatus at hmem
    by_cases hid : st = ASRStatus.idle
    · subst hid
      rw [shouldBeVisible_idle] at hmem
      cases hex : w2.windowExists with
      | false => simp [hide, hex] at hmem
      | true => simp [hide, hex] at hmem
    · rw [if_neg hid] at hmem
      cases hv : statusShouldBeVisible st with
      | false =>
        rw [hv] at hmem
        simp at hmem
        exact hid hmem.symm
      | true =>
        rw [hv] at hmem
        simp at hmem
        rcases hmem with hm | hm
        · exact wmShow_no_send cfg w2 ASRStatus.idle hm
        · exact hid hm.symm

/-- C6: first-time setup (`resetHeightSync`, `clearPreviousContent`) runs
exactly once per hidden-to-visible edge: over any number `n ≥ 1` of
consecutive `show()` calls, each setup action occurs exactly once if the
window was not already created-and-visible, and zero times otherwise;
repeated calls while visible are no-ops with respect to setup. -/
theorem show_setup_once_per_edge (cfg : WMConfig) (w : WMState) (n : Nat) :
    countAct WMAction.resetHeightSync (iterShow cfg w n).2
      = (if n = 0 then 0 else if w.windowExists && w.visible then 0 else 1) ∧
    countAct WMAction.clearPreviousContent (iterShow cfg w n).2
      = (if n = 0 then 0 else if w.windowExists && w.visible then 0 else 1) := by
  induction n generalizing w with
  | zero => simp [iterShow, countAct]
  | succ n ih =>
    have hrw : iterShow cfg w (n + 1)
        = ((iterShow cfg (wmShow cfg w).1 n).1,
           (wmShow cfg w).2 ++ (iterShow cfg (wmShow cfg w).1 n).2) := rfl
    obtain ⟨hpost1, hpost2⟩ := wmShow_post cfg w
    have ih1 := ih (wmShow cfg w).1
    rw [hpost1, hpost2] at ih1
    simp only [Bool.and_self, if_true] at ih1
    have ihr : countAct WMAction.resetHeightSync (iterShow cfg (wmShow cfg w).1 n).2 = 0 := by
      rcases ih1 with ⟨ha, _⟩
      rw [ha]
      split_ifs <;> rfl
    have ihc : countAct WMAction.clearPreviousContent (iterShow cfg (wmShow cfg w).1 n).2 = 0 := by
      rcases ih1 with ⟨_, hb⟩
      rw [hb]
      split_ifs <;> rfl
    rw [hrw]
    simp only [countAct_append, ihr, ihc]
    cases hb : w.windowExists <;> cases hv : w.visible <;>
      simp [wmShow, hb, hv, countAct]

/-- C6 auxiliary state for the witness-style checks below. -/
def demoCfg : WMConfig :=
  { minHeight := 60, maxHeight := 400, chromeHeight := 40, debounceThreshold := 4,
    windowWidth := 360, bottomOffset := 20, screenHeight := 1000 }

/-- A visible window whose last applied height is 100 px. -/
def demoWM : WMState :=
  { windowExists := true, visible := true, currentHeight := 100,
    bounds := { x := 0, y := 880, width := 360, height := 100 } }

/-- C7 counterexample: with the default 4 px threshold and last applied
height 100, requesting a content height whose target is 104 differs by
exactly 4 px — not *more than* 4 px — yet the code applies a bounds change
(the trace is nonempty), so "accepted iff the difference exceeds the
threshold" is false at this input. -/
theorem height_threshold_equality_cex :
    (setContentHeight demoCfg 64 demoWM).2 ≠ [] ∧
    ¬ ((min (demoCfg.chromeHeight + 64) demoCfg.maxHeight - demoWM.currentHeight).natAbs
        > demoCfg.debounceThreshold) := by
  decide

/-- C7 (amended): a requested content height is accepted (a bounds change is
applied) iff the capped target height `min(chromeHeight + contentHeight,
maxHeight)` differs from the last applied height by at least the debounce
threshold; a rejected request leaves the state unchanged; an accepted
request applies exactly the capped target height, which never exceeds
`maxHeight` (there is no lower clamp: the applied height equals the capped
target). -/
theorem height_accept_iff_threshold (cfg : WMConfig) (ch : Int) (w : WMState) :
    ((setContentHeight cfg ch w).2 ≠ [] ↔
      cfg.debounceThreshold
        ≤ (min (cfg.chromeHeight + ch) cfg.maxHeight - w.currentHeight).natAbs) ∧
    ((setContentHeight cfg ch w).2 = [] → (setContentHeight cfg ch w).1 = w) ∧
    ((setContentHeight cfg ch w).2 ≠ [] →
      (setContentHeight cfg ch w).1.currentHeight = min (cfg.chromeHeight + ch) cfg.maxHeight ∧
      (setContentHeight cfg ch w).1.bounds.height = min (cfg.chromeHeight + ch) cfg.maxHeight ∧
      (setContentHeight cfg ch w).1.currentHeight ≤ cfg.maxHeight) := by
  simp only [setContentHeight]
  split_ifs with h
  · refine ⟨iff_of_false (by simp) (by omega), fun _ => rfl, ?_⟩
    intro hne
    exact absurd rfl hne
  · refine ⟨iff_of_true (by simp) (by omega), ?_, ?_⟩
    · intro habs
      exact absurd habs (by simp)
    · intro _
      exact ⟨rfl, rfl, min_le_right _ _⟩

/-- C7 amended witness: at the demo configuration, a request with target 240
against last height 100 (difference 140 ≥ 4) is accepted. -/
theorem height_accept_iff_threshold_witness :
    (setContentHeight demoCfg 200 demoWM).2 ≠ [] :=
  (height_accept_iff_threshold demoCfg 200 demoWM).1.mpr (by decide)

/-- C8: every accepted height change keeps the bottom edge fixed: either the
request was rejected (state unchanged) or the new vertical origin plus the
new window height equals `screenHeight - BOTTOM_OFFSET`, a constant
independent of the requested height, so the bottom edge coordinate is
invariant across accepted changes and the window grows upward. -/
theorem bottom_edge_invariant (cfg : WMConfig) (ch : Int) (w : WMState) :
    (setContentHeight cfg ch w).1 = w ∨
    (setContentHeight cfg ch w).1.bounds.y + (setContentHeight cfg ch w).1.bounds.height
      = cfg.screenHeight - cfg.bottomOffset := by
  simp only [setContentHeight]
  split_ifs with h
  · exact Or.inl rfl
  · right
    simp
    omega

/-- C10: for every config argument the `asr:start` stub handler performs no
effect and resolves `{ success: true }` — it never returns a failure and
never throws — and the `asr:stop` stub handler likewise. -/
theorem asr_handlers_always_succeed (α : Type) (config : α) :
    asrStartHandler α config = ([], Except.ok { success := true }) ∧
    asrStopHandler = ([], Except.ok { success := true }) :=
  ⟨rfl, rfl⟩

/-! ## Additional closed witnesses -/

/-- C2 witness: concrete instantiation — a key-down while held is a no-op and
the start-count bound holds on a two-key-down trace from the initial state. -/
theorem single_active_session_witness :
    handleKeyDown CONFIG 3640 7000 { initialPTTState with isKeyHeld := true }
      = ({ initialPTTState with isKeyHeld := true }, none) ∧
    startsCount (run CONFIG initialPTTState
        [RawEvent.keydown 3640 7000, RawEvent.keydown 3640 7100]).2
      ≤ fallCount CONFIG initialPTTState
          [RawEvent.keydown 3640 7000, RawEvent.keydown 3640 7100]
        + (if initialPTTState.isKeyHeld then 0 else 1) :=
  single_active_session CONFIG initialPTTState 3640 7000 [RawEvent.keydown 3640 7000,
    RawEvent.keydown 3640 7100]

/-- C4 witness: the amended status enumeration instantiated at `processing`. -/
theorem asr_status_exactly_six_witness :
    ASRStatus.processing ∈ asrStatusValues ∧
    asrStatusValues.map ASRStatus.tsLiteral
      = ["idle", "connecting", "listening", "processing", "done", "error"] ∧
    asrStatusValues.Nodup ∧
    ASRStatus.processing.tsLiteral ≠ "finalizing" :=
  asr_status_exactly_six ASRStatus.processing

/-- C5 witness: on the demo state (window exists and is visible), `sendStatus
idle` emits exactly the hide action. -/
theorem idle_hides_before_notify_witness :
    (sendStatus demoCfg ASRStatus.idle demoWM).2 = [WMAction.hideWindow] := by
  have h := (idle_hides_before_notify demoCfg demoWM).1
  simpa using h

/-- C6 witness: three consecutive `show()` calls on the already-visible demo
window perform setup zero times. -/
theorem show_setup_once_per_edge_witness :
    countAct WMAction.resetHeightSync (iterShow demoCfg demoWM 3).2 = 0 := by
  have h := (show_setup_once_per_edge demoCfg demoWM 3).1
  simpa using h

/-- C8 witness: the bottom-edge alternative instantiated at the accepted demo
request. -/
theorem bottom_edge_invariant_witness :
    (setContentHeight demoCfg 200 demoWM).1 = demoWM ∨
    (setContentHeight demoCfg 200 demoWM).1.bounds.y
        + (setContentHeight demoCfg 200 demoWM).1.bounds.height
      = demoCfg.screenHeight - demoCfg.bottomOffset :=
  bottom_edge_invariant demoCfg 200 demoWM

/-- C10 witness: the handlers instantiated at a concrete config argument. -/
theorem asr_handlers_always_succeed_witness :
    asrStartHandler Nat 0 = ([], Except.ok { success := true }) ∧
    asrStopHandler = ([], Except.ok { success := true }) :=
  asr_handlers_always_succeed Nat 0
